import Mathlib

/-!
Verification of the Frogger game-state transition engine (`src/main.ts`).

The embedding translates the source faithfully:
* JS numbers for coordinates, velocities and the level multiplier become `ℚ`
  (every quantity appearing in the game is an exact decimal fraction);
  scores and the lives counter become `Int`; counters become `Nat`.
* The impure `Math.random()` choice of the fly respawn column is injected as
  an explicit parameter `rnd` of the reducer, as the spec's design notes
  prescribe for deterministic testing; every theorem quantifies over it.
* JS truthiness is modelled where the source relies on it: in
  `handleCollisions` the expression `!collidedBlocks` negates an *array*
  value, and in JavaScript every array object is truthy, so the negation is
  the constant `false`.  `jsTruthy` records that semantics.
-/

set_option maxRecDepth 8000

attribute [local semireducible] Rat.add Rat.mul Rat.inv Rat.sub

namespace Frogger

/-- Entity view types, as in the source `ViewType` union. -/
inductive ViewType where
  | frog
  | vehicle
  | plank
  | river
  | dest
  | block
  | crocodile
  | fly
  | crochead
deriving DecidableEq, Repr

/-- The string tag of a view type (used as the id prefix), `'end'` for `dest`. -/
def viewTypeStr : ViewType → String
  | .frog => "frog"
  | .vehicle => "vehicle"
  | .plank => "plank"
  | .river => "river"
  | .dest => "end"
  | .block => "block"
  | .crocodile => "crocodile"
  | .fly => "fly"
  | .crochead => "crochead"

/-- A rectangle entity body: `Rectangle` and `ObjectId` flattened into the
source's `Body` interface. -/
structure Body where
  x : ℚ
  y : ℚ
  height : ℚ
  width : ℚ
  velX : ℚ
  id : String
  createTime : Int
  viewType : ViewType
deriving DecidableEq, Repr

/-- The full game state, one field per field of the source `State` type. -/
structure State where
  time : Int
  frog : Body
  vehicles : List Body
  vehicles2 : List Body
  vehicles3 : List Body
  vehicles4 : List Body
  planks : List Body
  planks2 : List Body
  planks3 : List Body
  croc : List Body
  crocHead : List Body
  destinations : List Body
  blocks : List Body
  fly : Body
  reachDestID : String
  reachDestCount : Nat
  destScore : Int
  fliesScore : Int
  moveScore : Int
  totalScore : Int
  highScore : Int
  level : Nat
  levelPassed : Bool
  levelMultiplier : ℚ
  gameOver : Bool
  livesCount : Int
deriving DecidableEq, Repr

/-- Game constants from the source `Constants` record. -/
def CANVAS_WIDTH : ℚ := 600

def CANVAS_HEIGHT : ℚ := 550

def DESTINATION_COUNT : Nat := 5

def FROG_START_X : ℚ := 300

def FROG_START_Y : ℚ := 510

def FLY_START_X : ℚ := -100

def FLY_START_Y : ℚ := 15

/-- Source `createRectangle`: build a body from a view type, an id suffix with
creation time, and rectangle data; the id is the view tag ++ the suffix. -/
def createRectangle (viewType : ViewType) (idSuffix : String) (createTime : Int)
    (x y height width velX : ℚ) : Body :=
  { x := x, y := y, height := height, width := width, velX := velX,
    id := viewTypeStr viewType ++ idSuffix, createTime := createTime, viewType := viewType }

/-- Source `createFrog`. -/
def createFrog : Body :=
  { id := "frog", viewType := .frog, x := CANVAS_WIDTH / 2, y := CANVAS_HEIGHT - 40,
    height := 30, width := 30, createTime := 0, velX := 0 }

/-- Source `createFly`. -/
def createFly : Body :=
  { id := "fly", viewType := .fly, x := -100, y := 15,
    height := 20, width := 20, createTime := 0, velX := 0 }

/-- Starting y offsets of the vehicles (added to the canvas height). -/
def y_vehicles : List ℚ := [-140, -90, -240, -190]

/-- Starting velocities of the vehicles. -/
def vel_vehicles : List ℚ := [-1/2, 2, -1, 3]

/-- Starting y offsets of the planks (added to the canvas height). -/
def y_planks : List ℚ := [-340, -490, -390, -440]

/-- Widths of the planks. -/
def width_planks : List ℚ := [100, 100, 200, 300]

/-- Starting velocities of the planks. -/
def vel_planks : List ℚ := [1, -2, 2, -1]

/-- The x positions of the destinations. -/
def x_dests : List ℚ := [25, 150, 275, 400, 525]

/-- First array of vehicles (4 rows at x = 0). -/
def startVehicles : List Body :=
  (List.range 4).map fun i =>
    createRectangle .vehicle (toString i ++ "a") 0
      0 (CANVAS_HEIGHT + y_vehicles.getD i 0) 30 50 (vel_vehicles.getD i 0)

/-- Second array of vehicles (4 rows at x = 150). -/
def startVehicles2 : List Body :=
  (List.range 4).map fun i =>
    createRectangle .vehicle (toString i ++ "b") 0
      150 (CANVAS_HEIGHT + y_vehicles.getD i 0) 30 50 (vel_vehicles.getD i 0)

/-- Third array of vehicles (3 rows at x = 300). -/
def startVehicles3 : List Body :=
  (List.range 3).map fun i =>
    createRectangle .vehicle (toString i ++ "c") 0
      300 (CANVAS_HEIGHT + y_vehicles.getD i 0) 30 50 (vel_vehicles.getD i 0)

/-- Fourth array of vehicles (1 row at x = 450). -/
def startVehicles4 : List Body :=
  (List.range 1).map fun i =>
    createRectangle .vehicle (toString i ++ "d") 0
      450 (CANVAS_HEIGHT + y_vehicles.getD i 0) 30 50 (vel_vehicles.getD i 0)

/-- First array of planks (4 rows at x = 0). -/
def startPlanks : List Body :=
  (List.range 4).map fun i =>
    createRectangle .plank (toString i ++ "a") 0
      0 (CANVAS_HEIGHT + y_planks.getD i 0) 30 (width_planks.getD i 0) (vel_planks.getD i 0)

/-- Second array of planks (2 rows at x = 200). -/
def startPlanks2 : List Body :=
  (List.range 2).map fun i =>
    createRectangle .plank (toString i ++ "b") 0
      200 (CANVAS_HEIGHT + y_planks.getD i 0) 30 (width_planks.getD i 0) (vel_planks.getD i 0)

/-- Third array of planks (2 rows at x = 400). -/
def startPlanks3 : List Body :=
  (List.range 2).map fun i =>
    createRectangle .plank (toString i ++ "c") 0
      400 (CANVAS_HEIGHT + y_planks.getD i 0) 30 (width_planks.getD i 0) (vel_planks.getD i 0)

/-- The crocodile array (1 crocodile). -/
def startCroc : List Body :=
  (List.range 1).map fun i =>
    createRectangle .crocodile (toString i) 0
      300 (CANVAS_HEIGHT + y_planks.getD 2 0) 30 (width_planks.getD 2 0) (vel_planks.getD 2 0)

/-- The crocodile head array (1 head). -/
def startCrocHead : List Body :=
  (List.range 1).map fun i =>
    createRectangle .crochead (toString i) 0
      480 (CANVAS_HEIGHT + y_planks.getD 2 0) 30 50 (vel_planks.getD 2 0)

/-- The array of destinations. -/
def startDest : List Body :=
  (List.range DESTINATION_COUNT).map fun i =>
    createRectangle .dest (toString i) 0 (x_dests.getD i 0) 2 48 60 0

/-- The array of blocks under the destinations. -/
def startBlocks : List Body :=
  (List.range DESTINATION_COUNT).map fun i =>
    createRectangle .block (toString i) 0 (x_dests.getD i 0) 2 48 60 0

/-- Source `torusWrap`: wrap a position around the left/right canvas edges. -/
def torusWrap (c : ℚ) : ℚ :=
  if c ≤ 0 then c + CANVAS_WIDTH else if c ≥ CANVAS_WIDTH then c - CANVAS_WIDTH else c

/-- Source `borderBlock`: push a position back from the top/bottom canvas edges. -/
def borderBlock (c : ℚ) : ℚ :=
  if c ≤ 0 then c + 50 else if c ≥ CANVAS_HEIGHT then c - 50 else c

/-- Source `moveBody`: advance a body by its velocity times the level multiplier. -/
def moveBody (o : Body) (s : State) : Body :=
  { o with x := torusWrap (o.x + o.velX * s.levelMultiplier), y := borderBlock o.y }

/-- Source `bodiesCollided`: the (asymmetric) overlap test between two bodies. -/
def bodiesCollided (a b : Body) : Bool :=
  decide (a.x + a.width ≥ b.x) && decide (a.x ≤ b.x + b.width) &&
  decide (a.y + a.height ≤ b.y + b.height) && decide (a.y ≥ b.y)

/-- Planks, second/third plank rows and crocodile bodies overlapping the frog
(the source flat-maps a filter over the four collections, which is the filter
of their concatenation). -/
def collidedPlanks (s : State) : List Body :=
  (s.planks ++ s.planks2 ++ s.planks3 ++ s.croc).filter fun p => bodiesCollided s.frog p

/-- Vehicles (all four collections) overlapping the frog. -/
def collidedVehicle (s : State) : List Body :=
  (s.vehicles ++ s.vehicles2 ++ s.vehicles3 ++ s.vehicles4).filter fun v =>
    bodiesCollided s.frog v

/-- Whether the frog touches the left or right canvas side. -/
def collidedSides (s : State) : Bool :=
  decide (s.frog.x ≥ CANVAS_WIDTH) || decide (s.frog.x ≤ 0)

/-- Whether the frog is in the river band with no supporting plank. -/
def collidedRiver (s : State) : Bool :=
  decide (s.frog.y ≥ 50) && decide (s.frog.y ≤ 250) &&
  decide ((collidedPlanks s).length ≤ 0)

/-- Destinations overlapping the frog. -/
def collidedEnd (s : State) : List Body :=
  s.destinations.filter fun d => bodiesCollided s.frog d

/-- Crocodile heads overlapping the frog. -/
def collidedCrocHead (s : State) : List Body :=
  s.crocHead.filter fun c => bodiesCollided s.frog c

/-- Whether the frog is in the final zone without touching a destination. -/
def collidedFinalZone (s : State) : Bool :=
  decide (s.frog.y ≤ 50) && decide ((collidedEnd s).length ≤ 0)

/-- Blocks overlapping the frog. -/
def collidedBlocks (s : State) : List Body :=
  s.blocks.filter fun b => bodiesCollided s.frog b

/-- Whether the fly overlaps the frog. -/
def collidedFly (s : State) : Bool :=
  bodiesCollided s.fly s.frog

/-- Whether the frog hit anything that costs a life. -/
def collidedDeath (s : State) : Bool :=
  decide ((collidedVehicle s).length > 0) || collidedSides s || collidedRiver s ||
  decide ((collidedCrocHead s).length > 0)

/-- JavaScript truthiness of an array value: every array object is truthy,
whatever its contents, so the source's `!collidedBlocks` is always `false`. -/
def jsTruthy (_l : List Body) : Bool := true

/-- The velocity of the first body of a list (source `collidedPlanks[0].velX`,
only read under a nonemptiness guard). -/
def firstVelX : List Body → ℚ
  | [] => 0
  | p :: _ => p.velX

/-- The id of the first body of a list (source `collidedEnd[0].id`, only read
under a nonemptiness guard). -/
def firstId : List Body → String
  | [] => ""
  | d :: _ => d.id

/-- Source `handleCollisions`: collision detection and resolution. -/
def handleCollisions (s : State) : State :=
  { s with
    frog := { s.frog with
      x := if (collidedEnd s).length > 0 || collidedDeath s then FROG_START_X else s.frog.x,
      y := if (collidedEnd s).length > 0 || collidedDeath s then FROG_START_Y
           else if collidedFinalZone s || (collidedBlocks s).length > 0 then s.frog.y + 50
           else s.frog.y,
      velX := if (collidedPlanks s).length > 0 then firstVelX (collidedPlanks s) else 0 },
    fly := { s.fly with
      x := if collidedFly s then FLY_START_X else s.fly.x,
      y := if collidedFly s then FLY_START_Y else s.fly.y },
    reachDestID := if (collidedEnd s).length > 0 then firstId (collidedEnd s) else "",
    destinations := s.destinations.map fun b =>
      if b.id = s.reachDestID then { b with y := b.y - 100 } else b,
    reachDestCount := if (collidedEnd s).length > 0 then s.reachDestCount + 1
                      else s.reachDestCount,
    levelPassed := if s.reachDestCount = DESTINATION_COUNT then true else false,
    destScore := if (collidedEnd s).length > 0 then s.destScore + 100 else s.destScore,
    fliesScore := if collidedFly s && !(jsTruthy (collidedBlocks s)) then s.fliesScore + 50
                  else s.fliesScore,
    totalScore := s.destScore + s.fliesScore + s.moveScore,
    highScore := if s.totalScore ≥ s.highScore then s.totalScore else s.highScore,
    livesCount := if collidedDeath s then s.livesCount - 1 else s.livesCount,
    gameOver := if s.livesCount = 0 then true else false }

/-- The initial game state. -/
def initialState : State :=
  { time := 0,
    frog := createFrog,
    vehicles := startVehicles,
    vehicles2 := startVehicles2,
    vehicles3 := startVehicles3,
    vehicles4 := startVehicles4,
    planks := startPlanks,
    planks2 := startPlanks2,
    planks3 := startPlanks3,
    croc := startCroc,
    crocHead := startCrocHead,
    destinations := startDest,
    blocks := startBlocks,
    fly := createFly,
    reachDestCount := 0,
    reachDestID := "",
    destScore := 0,
    fliesScore := 0,
    moveScore := 0,
    totalScore := 0,
    highScore := 0,
    level := 1,
    levelPassed := false,
    levelMultiplier := 1/2,
    gameOver := false,
    livesCount := 3 }

/-- Motion stage of the source `tick`: advance every moving entity, respawn the
fly on edge-triggered 500-tick boundaries (the random column choice is the
injected `rnd`), and set the clock. -/
def tickMoved (rnd : Nat) (s : State) (elapsed : Int) : State :=
  { s with
    frog := moveBody s.frog s,
    vehicles := s.vehicles.map fun x => moveBody x s,
    vehicles2 := s.vehicles2.map fun x => moveBody x s,
    vehicles3 := s.vehicles3.map fun x => moveBody x s,
    vehicles4 := s.vehicles4.map fun x => moveBody x s,
    planks := s.planks.map fun x => moveBody x s,
    planks2 := s.planks2.map fun x => moveBody x s,
    planks3 := s.planks3.map fun x => moveBody x s,
    croc := s.croc.map fun x => moveBody x s,
    crocHead := s.crocHead.map fun x => moveBody x s,
    fly := { s.fly with
      x := if s.time % 500 = 0 ∧ s.time ≠ 0 then
             x_dests.getD (rnd % DESTINATION_COUNT) 0 + 20
           else s.fly.x },
    time := elapsed }

/-- Source `tick`: the motion stage followed by collision resolution. -/
def tick (rnd : Nat) (s : State) (elapsed : Int) : State :=
  handleCollisions (tickMoved rnd s elapsed)

/-- The three event shapes fed to the reducer. -/
inductive GameEvent where
  | Move (x y : ℚ) (isScore : Bool)
  | Tick (elapsed : Int)
  | Restart
deriving DecidableEq, Repr

/-- Source `reduceState`: the state transition function, dispatched by event
variant; `rnd` is the injected random column choice used by tick. -/
def reduceState (rnd : Nat) (s : State) (e : GameEvent) : State :=
  match e with
  | .Move x y isScore =>
      { s with
        frog := { s.frog with x := s.frog.x + x, y := s.frog.y + y },
        moveScore := if isScore && decide (s.frog.y > 100) then s.moveScore + 10
                     else s.moveScore }
  | .Restart => { s with gameOver := true }
  | .Tick elapsed => tick rnd s elapsed

/-- Source `newGameState`: the level/session regenerator. -/
def newGameState (s : State) : State :=
  if s.gameOver then
    { s with
      time := 0,
      frog := createFrog,
      vehicles := startVehicles,
      vehicles2 := startVehicles2,
      vehicles3 := startVehicles3,
      vehicles4 := startVehicles4,
      planks := startPlanks,
      planks2 := startPlanks2,
      planks3 := startPlanks3,
      croc := startCroc,
      crocHead := startCrocHead,
      destinations := startDest,
      blocks := startBlocks,
      reachDestCount := 0,
      fly := createFly,
      reachDestID := "",
      destScore := 0,
      fliesScore := 0,
      moveScore := 0,
      totalScore := 0,
      level := 1,
      levelPassed := false,
      levelMultiplier := 1/2,
      gameOver := false,
      livesCount := 3 }
  else if s.levelPassed then
    { s with
      time := 0,
      frog := createFrog,
      vehicles := startVehicles,
      vehicles2 := startVehicles2,
      vehicles3 := startVehicles3,
      vehicles4 := startVehicles4,
      planks := startPlanks,
      planks2 := startPlanks2,
      planks3 := startPlanks3,
      croc := startCroc,
      crocHead := startCrocHead,
      destinations := startDest,
      blocks := startBlocks,
      reachDestCount := 0,
      fly := createFly,
      reachDestID := "",
      destScore := s.destScore,
      fliesScore := s.fliesScore,
      moveScore := s.moveScore,
      totalScore := s.totalScore,
      level := s.level + 1,
      levelPassed := false,
      levelMultiplier := s.levelMultiplier + 1/10,
      gameOver := false,
      livesCount := s.livesCount }
  else s

/-!
Concrete states and event sequences used by the theorems below.
-/

/-- A forward move event (arrow up): dy = −50, scoring. -/
def moveU : GameEvent := .Move 0 (-50) true

/-- A left move event: dx = −50, not scoring. -/
def moveL : GameEvent := .Move (-50) 0 false

/-- A right move event: dx = 50, not scoring. -/
def moveR : GameEvent := .Move 50 0 false

/-- An event sequence from the initial state that places the frog on each of
the five destinations in turn (each reach snaps the frog back to its start
position), with one tick per reach and one extra closing tick; no tick ever
finds the frog in a death position. -/
def levelEvents : List GameEvent :=
  List.replicate 5 moveL ++ List.replicate 10 moveU ++ [.Tick 1] ++
  List.replicate 3 moveL ++ List.replicate 10 moveU ++ [.Tick 2] ++
  List.replicate 10 moveU ++ [.Tick 3] ++
  List.replicate 2 moveR ++ List.replicate 10 moveU ++ [.Tick 4] ++
  List.replicate 4 moveR ++ List.replicate 10 moveU ++ [.Tick 5] ++ [.Tick 6]

/-- The state reached after the first `n` events of `levelEvents`. -/
def levelState (n : Nat) : State :=
  (levelEvents.take n).foldl (reduceState 0) initialState

/-- The state reached after the whole of `levelEvents`. -/
def levelFinal : State := levelEvents.foldl (reduceState 0) initialState

/-- The initial state with the fly moved onto the frog (frog at (300, 510),
fly at (300, 510)): the overlap predicate holds and no block overlaps. -/
def s3 : State := { initialState with fly := { initialState.fly with x := 300, y := 510 } }

/-- The state after one scoring forward move from the initial state. -/
def s4a : State := reduceState 0 initialState (.Move 0 (-50) true)

/-- The state after a scoring forward move and then one tick. -/
def s4b : State := reduceState 0 s4a (.Tick 1)

/-- The initial state with the frog placed on destination `end0`
(frog at (25, 10); the first goal zone sits at (25, 2) with size 60 × 48). -/
def s6 : State := { initialState with frog := { initialState.frog with x := 25, y := 10 } }

/-- A game-over state with a nonzero high score. -/
def s8 : State := { initialState with gameOver := true, highScore := 42 }

/-!
Small unfolding lemmas: each records, by `rfl`, what one field of the state
produced by `handleCollisions` (or by the motion stage of a tick) is.
-/

/-- Unfolding lemma for the lives counter after collision resolution. -/
theorem hc_livesCount (s : State) :
    (handleCollisions s).livesCount =
      if collidedDeath s then s.livesCount - 1 else s.livesCount := rfl

/-- Unfolding lemma for the game-over flag after collision resolution. -/
theorem hc_gameOver (s : State) :
    (handleCollisions s).gameOver = if s.livesCount = 0 then true else false := rfl

/-- Unfolding lemma for the total score after collision resolution. -/
theorem hc_totalScore (s : State) :
    (handleCollisions s).totalScore = s.destScore + s.fliesScore + s.moveScore := rfl

/-- Unfolding lemma for the high score after collision resolution. -/
theorem hc_highScore (s : State) :
    (handleCollisions s).highScore =
      if s.totalScore ≥ s.highScore then s.totalScore else s.highScore := rfl

/-- Unfolding lemma for the reached-destination id after collision resolution. -/
theorem hc_reachDestID (s : State) :
    (handleCollisions s).reachDestID =
      if (collidedEnd s).length > 0 then firstId (collidedEnd s) else "" := rfl

/-- Unfolding lemma for the reached-destination count after collision resolution. -/
theorem hc_reachDestCount (s : State) :
    (handleCollisions s).reachDestCount =
      if (collidedEnd s).length > 0 then s.reachDestCount + 1 else s.reachDestCount := rfl

/-- Unfolding lemma for the goal score after collision resolution. -/
theorem hc_destScore (s : State) :
    (handleCollisions s).destScore =
      if (collidedEnd s).length > 0 then s.destScore + 100 else s.destScore := rfl

/-- Unfolding lemma for the fly score after collision resolution. -/
theorem hc_fliesScore (s : State) :
    (handleCollisions s).fliesScore =
      if collidedFly s && !(jsTruthy (collidedBlocks s)) then s.fliesScore + 50
      else s.fliesScore := rfl

/-- Unfolding lemma for the destinations after collision resolution. -/
theorem hc_destinations (s : State) :
    (handleCollisions s).destinations =
      s.destinations.map (fun b =>
        if b.id = s.reachDestID then { b with y := b.y - 100 } else b) := rfl

/-- The motion stage of a tick does not change the lives counter. -/
theorem tickMoved_livesCount (rnd : Nat) (s : State) (n : Int) :
    (tickMoved rnd s n).livesCount = s.livesCount := rfl

/-- The motion stage of a tick does not change any score accumulator. -/
theorem tickMoved_scores (rnd : Nat) (s : State) (n : Int) :
    (tickMoved rnd s n).destScore = s.destScore ∧
    (tickMoved rnd s n).fliesScore = s.fliesScore ∧
    (tickMoved rnd s n).moveScore = s.moveScore ∧
    (tickMoved rnd s n).totalScore = s.totalScore ∧
    (tickMoved rnd s n).highScore = s.highScore := ⟨rfl, rfl, rfl, rfl, rfl⟩

/-!
Claims.
-/

/-- C1, counterexample: one scoring forward move from the initial state yields
a state whose `totalScore` (still 0) differs from the sum of its three score
accumulators (0 + 0 + 10): the reducer does not restore the total-score
equation on a move transition. -/
theorem totalScore_not_in_sync_after_move :
    (reduceState 0 initialState (.Move 0 (-50) true)).totalScore ≠
      (reduceState 0 initialState (.Move 0 (-50) true)).destScore +
      (reduceState 0 initialState (.Move 0 (-50) true)).fliesScore +
      (reduceState 0 initialState (.Move 0 (-50) true)).moveScore := by decide

/-- C1, amended: `totalScore` lags the accumulators by one transition.  After a
tick transition the resulting `totalScore` equals the sum of the three score
accumulators of the *pre-transition* state; move and restart transitions leave
`totalScore` unchanged (even when a scoring move increases `moveScore`). -/
theorem totalScore_lags_one_transition (rnd : Nat) (s : State) :
    (∀ n, (reduceState rnd s (.Tick n)).totalScore =
      s.destScore + s.fliesScore + s.moveScore) ∧
    (∀ x y b, (reduceState rnd s (.Move x y b)).totalScore = s.totalScore) ∧
    (reduceState rnd s .Restart).totalScore = s.totalScore :=
  ⟨fun _ => rfl, fun _ _ _ => rfl, rfl⟩

/-- C2, counterexample: a single `Restart` event applied to the initial state
(a reachable transition) produces a state with `gameOver = true` while
`livesCount = 3`, so `gameOver` does not hold iff lives reached zero. -/
theorem restart_gameOver_with_three_lives :
    (reduceState 0 initialState .Restart).gameOver = true ∧
    (reduceState 0 initialState .Restart).livesCount = 3 := by decide

/-- C2, amended: each transition lowers `livesCount` by at most one; the
game-over flag of a tick result is true exactly when the *pre-tick* lives
counter was zero (so it lags the decrement by one tick); `Restart` raises the
flag unconditionally, and a move preserves flag and lives. -/
theorem lives_and_gameOver_step (rnd : Nat) (s : State) :
    (∀ e, s.livesCount - 1 ≤ (reduceState rnd s e).livesCount) ∧
    (∀ n, ((reduceState rnd s (.Tick n)).gameOver = true ↔ s.livesCount = 0)) ∧
    (reduceState rnd s .Restart).gameOver = true ∧
    (∀ x y b, (reduceState rnd s (.Move x y b)).gameOver = s.gameOver) := by
  refine ⟨fun e => ?_, fun n => ?_, rfl, fun _ _ _ => rfl⟩
  · cases e with
    | Move x y b => exact (by omega : s.livesCount - 1 ≤ s.livesCount)
    | Tick n =>
        show s.livesCount - 1 ≤ (tick rnd s n).livesCount
        rw [tick, hc_livesCount, tickMoved_livesCount]
        split <;> omega
    | Restart => exact (by omega : s.livesCount - 1 ≤ s.livesCount)
  · show (tick rnd s n).gameOver = true ↔ s.livesCount = 0
    rw [tick, hc_gameOver, tickMoved_livesCount]
    split <;> simp_all

/-- C3, code bug witness: with the fly moved onto the frog, the overlap is
detected (the fly is snapped back to its off-field spawn) and the frog touches
no block, yet `fliesScore` is not increased; in fact collision resolution never
changes `fliesScore`, because the source guard `collidedFly && !collidedBlocks`
negates an array value, which in JavaScript is always truthy, so the bonus
branch is unreachable — contradicting the code's own comment that a frog
colliding with a fly adds to the score. -/
theorem fliesScore_never_increases :
    (collidedFly s3 = true ∧ (collidedBlocks s3).length = 0 ∧
      collidedDeath s3 = false ∧
      (handleCollisions s3).fly.x = FLY_START_X ∧
      (handleCollisions s3).fliesScore = 0) ∧
    ∀ s : State, (handleCollisions s).fliesScore = s.fliesScore :=
  ⟨by decide, fun s => by rw [hc_fliesScore]; simp [jsTruthy]⟩

/-- C4, counterexample: after a scoring forward move and one tick from the
initial state, `totalScore = 10` but `highScore = 0`: the tick recomputes the
high score from the stale previous total, so `highScore ≥ totalScore` fails
and the high score is not the maximum of its previous value and the newly
computed total. -/
theorem highScore_can_drop_below_total :
    s4b.totalScore = 10 ∧ s4b.highScore = 0 ∧
    ¬ s4b.totalScore ≤ s4b.highScore := by decide

/-- C4, amended: `highScore` is monotone non-decreasing across every
transition, and a tick recomputes it as the maximum of the *pre-transition*
`totalScore` and the previous `highScore` (not of the newly computed total). -/
theorem highScore_update_rule (rnd : Nat) (s : State) :
    (∀ e, s.highScore ≤ (reduceState rnd s e).highScore) ∧
    (∀ n, (reduceState rnd s (.Tick n)).highScore = max s.totalScore s.highScore) := by
  have key : ∀ n : Int, (reduceState rnd s (.Tick n)).highScore =
      if s.totalScore ≥ s.highScore then s.totalScore else s.highScore := by
    intro n
    show (tick rnd s n).highScore = _
    rw [tick, hc_highScore]
    rfl
  refine ⟨fun e => ?_, fun n => ?_⟩
  · cases e with
    | Move x y b => exact le_of_eq rfl
    | Tick n => rw [key]; split <;> omega
    | Restart => exact le_of_eq rfl
  · rw [key]
    split
    · next h => exact (max_eq_left h).symm
    · next h => exact (max_eq_right (by omega)).symm

/-- C5, counterexample: 0 lies in the stated domain [−width, 2·width], but
`torusWrap 0 = 600`, which is not inside [0, width), and applying the wrap
again gives 0, so the wrap is not idempotent there either. -/
theorem torusWrap_at_zero :
    torusWrap 0 = 600 ∧ ¬ torusWrap 0 < CANVAS_WIDTH ∧
    torusWrap (torusWrap 0) ≠ torusWrap 0 := by decide

/-- C5, amended: on [−width, 2·width] the wrap lands in the *closed* interval
[0, width] (the right endpoint is attained, at x = 0 and x = 2·width), and on
the open interval (0, width) the wrap is the identity — hence idempotent
there. -/
theorem torusWrap_range_and_idem (x : ℚ) :
    (-CANVAS_WIDTH ≤ x → x ≤ 2 * CANVAS_WIDTH →
      0 ≤ torusWrap x ∧ torusWrap x ≤ CANVAS_WIDTH) ∧
    (0 < x → x < CANVAS_WIDTH →
      torusWrap x = x ∧ torusWrap (torusWrap x) = torusWrap x) := by
  have key : ∀ y : ℚ, 0 < y → y < CANVAS_WIDTH → torusWrap y = y := by
    intro y hy1 hy2
    unfold CANVAS_WIDTH at hy2
    unfold torusWrap CANVAS_WIDTH
    split_ifs <;> linarith
  constructor
  · unfold torusWrap CANVAS_WIDTH
    intro h1 h2
    split_ifs <;> constructor <;> linarith
  · intro h1 h2
    have h := key x h1 h2
    exact ⟨h, by rw [h, h]⟩

/-- C5, witness for the amended theorem, at x = 3. -/
theorem torusWrap_range_and_idem_witness :
    (0 ≤ torusWrap 3 ∧ torusWrap 3 ≤ CANVAS_WIDTH) ∧
    (torusWrap 3 = 3 ∧ torusWrap (torusWrap 3) = torusWrap 3) :=
  ⟨(torusWrap_range_and_idem 3).1 (by norm_num [CANVAS_WIDTH]) (by norm_num [CANVAS_WIDTH]),
   (torusWrap_range_and_idem 3).2 (by norm_num) (by norm_num [CANVAS_WIDTH])⟩

/-- C6, counterexample: with the frog placed on the first goal zone and no
goal recorded as previously reached, collision resolution records the reach
(`reachDestID = "end0"`, count 1, +100 goal score) but leaves every
destination at its original y-coordinate 2: the reached goal's marker is not
shifted off-field in that same transition. -/
theorem goal_marker_unshifted_same_transition :
    (handleCollisions s6).reachDestCount = 1 ∧
    (handleCollisions s6).reachDestID = "end0" ∧
    (handleCollisions s6).destScore = 100 ∧
    (handleCollisions s6).destinations.map (fun b => b.y) = [2, 2, 2, 2, 2] := by decide

/-- C6, amended: on a goal-overlap transition the goal's id is recorded, the
reached-count is incremented and the goal score grows by 100, but the
destination that gets shifted off-field (y decreased by 100) is the one whose
id was recorded in the *previous* transition, so the just-reached goal's
marker is only converted on the next collision resolution. -/
theorem goal_bookkeeping_lagged_marker (s : State) (h : collidedEnd s ≠ []) :
    (handleCollisions s).reachDestID = firstId (collidedEnd s) ∧
    (handleCollisions s).reachDestCount = s.reachDestCount + 1 ∧
    (handleCollisions s).destScore = s.destScore + 100 ∧
    (handleCollisions s).destinations =
      s.destinations.map (fun b =>
        if b.id = s.reachDestID then { b with y := b.y - 100 } else b) := by
  have hl : 0 < (collidedEnd s).length := List.length_pos.mpr h
  refine ⟨?_, ?_, ?_, hc_destinations s⟩
  · rw [hc_reachDestID, if_pos hl]
  · rw [hc_reachDestCount, if_pos hl]
  · rw [hc_destScore, if_pos hl]

/-- C6, witness for the amended theorem, at the frog-on-goal state `s6`. -/
theorem goal_bookkeeping_lagged_marker_witness :
    collidedEnd s6 ≠ [] ∧
    ((handleCollisions s6).reachDestID = firstId (collidedEnd s6) ∧
     (handleCollisions s6).reachDestCount = s6.reachDestCount + 1 ∧
     (handleCollisions s6).destScore = s6.destScore + 100 ∧
     (handleCollisions s6).destinations =
       s6.destinations.map (fun b =>
         if b.id = s6.reachDestID then { b with y := b.y - 100 } else b)) :=
  ⟨by decide, goal_bookkeeping_lagged_marker s6 (by decide)⟩

/-- C7: the concrete event sequence `levelEvents` reaches the five distinct
goal zones in turn (the recorded ids after the five reaching ticks are
end0 … end4), ends with `levelPassed = true`, and the regenerator applied to
the final state increments the level, adds 0.1 to the multiplier, clears the
reached-count, and preserves all cumulative scores and the lives counter. -/
theorem level_completion_trace :
    (levelState 16).reachDestID = "end0" ∧
    (levelState 30).reachDestID = "end1" ∧
    (levelState 41).reachDestID = "end2" ∧
    (levelState 54).reachDestID = "end3" ∧
    (levelState 69).reachDestID = "end4" ∧
    levelFinal.reachDestCount = DESTINATION_COUNT ∧
    levelFinal.levelPassed = true ∧
    (newGameState levelFinal).level = levelFinal.level + 1 ∧
    (newGameState levelFinal).levelMultiplier = levelFinal.levelMultiplier + 1/10 ∧
    (newGameState levelFinal).reachDestCount = 0 ∧
    (newGameState levelFinal).destScore = levelFinal.destScore ∧
    (newGameState levelFinal).fliesScore = levelFinal.fliesScore ∧
    (newGameState levelFinal).moveScore = levelFinal.moveScore ∧
    (newGameState levelFinal).totalScore = levelFinal.totalScore ∧
    (newGameState levelFinal).livesCount = levelFinal.livesCount := by decide

/-- C8, counterexample: on a state with `livesCount = 0` whose game-over flag
is still false (the flag lags the decrement, so such states are the normal
result of losing the last life), the regenerator is the identity: lives stay
0 instead of being reset to 3. -/
theorem newGameState_ignores_zero_lives :
    newGameState { initialState with livesCount := 0 } =
      { initialState with livesCount := 0 } ∧
    (newGameState { initialState with livesCount := 0 }).livesCount ≠ 3 := by decide

/-- C8, amended: the game-over reset is keyed on the `gameOver` flag, not on
the lives counter: for every state with `gameOver = true` the regenerator
yields level 1, multiplier 1/2, lives 3, all per-level score accumulators 0,
and an unchanged high score. -/
theorem gameOver_state_reset (s : State) (h : s.gameOver = true) :
    (newGameState s).level = 1 ∧ (newGameState s).levelMultiplier = 1/2 ∧
    (newGameState s).livesCount = 3 ∧ (newGameState s).destScore = 0 ∧
    (newGameState s).fliesScore = 0 ∧ (newGameState s).moveScore = 0 ∧
    (newGameState s).totalScore = 0 ∧ (newGameState s).highScore = s.highScore := by
  unfold newGameState
  rw [if_pos h]
  exact ⟨rfl, rfl, rfl, rfl, rfl, rfl, rfl, rfl⟩

/-- C8, witness for the amended theorem, at a game-over state with high
score 42. -/
theorem gameOver_state_reset_witness :
    s8.gameOver = true ∧
    ((newGameState s8).level = 1 ∧ (newGameState s8).levelMultiplier = 1/2 ∧
     (newGameState s8).livesCount = 3 ∧ (newGameState s8).destScore = 0 ∧
     (newGameState s8).fliesScore = 0 ∧ (newGameState s8).moveScore = 0 ∧
     (newGameState s8).totalScore = 0 ∧ (newGameState s8).highScore = s8.highScore) :=
  ⟨rfl, gameOver_state_reset s8 rfl⟩

/-- C9: a `Restart` event sets the game-over flag and changes nothing else:
the result is exactly the input state with `gameOver := true`. -/
theorem restart_sets_gameOver_only (rnd : Nat) (s : State) :
    reduceState rnd s .Restart = { s with gameOver := true } := rfl

/-- C10: a tick recomputes the game-over flag solely from the pre-tick lives
counter: from any state with nonzero lives — even one whose flag was set by a
`Restart` — the tick result has `gameOver = false`. -/
theorem tick_recomputes_gameOver (rnd : Nat) (s : State) (n : Int)
    (h : s.livesCount ≠ 0) :
    (reduceState rnd s (.Tick n)).gameOver = false := by
  show (tick rnd s n).gameOver = false
  rw [tick, hc_gameOver, tickMoved_livesCount, if_neg h]

/-- C10, witness: from the initial state with the flag forced on (as after a
restart), one tick turns the flag back off. -/
theorem tick_recomputes_gameOver_witness :
    ({ initialState with gameOver := true } : State).livesCount ≠ 0 ∧
    (reduceState 0 { initialState with gameOver := true } (.Tick 1)).gameOver = false :=
  ⟨by decide, tick_recomputes_gameOver 0 { initialState with gameOver := true } 1 (by decide)⟩

end Frogger
